import Mathlib

/-!
Shallow embedding of `src/tracer.py` (nose-tracer): a call-tracing
instrumentation layer.  Python callables are modelled by the outcome they
produce (`Outcome`): a returned value, the distinguished skip signal
(`testtools.testcase.TestSkipped`) with its message, or any other exception
with its type name and message.  Wall-clock readings of `time.time()` are
modelled as rationals; Python `int()` truncation is `pyInt`.  The live call
stack returned by `inspect.stack()` is a list of frames, innermost first
(index 0 is the wrapper `tracer`'s own frame).  Logging is modelled as a list
of emitted (level, message) events.  A possible exception raised inside the
finishing phase's inner `try` (lines 89-160) is modelled by an
`Option String` argument: `some e` means the finishing phase raised an
exception rendered as `e` before completing.
-/

namespace NoseTracer

/-- Decidable equality for `Except`, so that concrete outcomes of the
configuration phase can be checked by `decide`. -/
instance {ε α : Type} [DecidableEq ε] [DecidableEq α] : DecidableEq (Except ε α) := fun a b =>
  match a, b with
  | .ok x, .ok y =>
    if h : x = y then .isTrue (by rw [h]) else .isFalse (fun hh => h (Except.ok.inj hh))
  | .error x, .error y =>
    if h : x = y then .isTrue (by rw [h]) else .isFalse (fun hh => h (Except.error.inj hh))
  | .ok x, .error y => .isFalse (fun hh => Except.noConfusion hh)
  | .error x, .ok y => .isFalse (fun hh => Except.noConfusion hh)

/-- Constants for specifying a trigger (tracer.py lines 12-14). -/
def TRIGGER_NEVER : String := "never"

/-- Trigger constant "always" (tracer.py line 13). -/
def TRIGGER_ALWAYS : String := "always"

/-- Trigger constant "on_failure" (tracer.py line 14). -/
def TRIGGER_ON_FAILURE : String := "on_failure"

/-- Used for validation (tracer.py line 17). -/
def VALID_TRIGGERS : List String := [TRIGGER_NEVER, TRIGGER_ON_FAILURE, TRIGGER_ALWAYS]

/-- Python `int()` applied to a real reading: truncation toward zero. -/
def pyInt (q : ℚ) : Int := if 0 ≤ q then ⌊q⌋ else ⌈q⌉

/-- Python `s.startswith(pre)`. -/
def starts_with (s pre : String) : Bool := pre.data.isPrefixOf s.data

/-- Scan for the last slash-free segment of a path. -/
def basename_go (cur : List Char) : List Char → List Char
  | [] => cur
  | c :: cs => if c = '/' then basename_go [] cs else basename_go (cur ++ [c]) cs

/-- Python `os.path.basename`: the part of a path after the last slash. -/
def basename (path : String) : String := String.mk (basename_go [] path.data)

/-- The characters after the first occurrence of `sep`, or `[]` when `sep`
does not occur. -/
def after_sep (sep : List Char) : List Char → List Char
  | [] => []
  | c :: cs =>
    if sep.isPrefixOf (c :: cs) then List.drop sep.length (c :: cs)
    else after_sep sep cs

/-- Python `s.partition(sep)[2]`: the part of `s` after the first occurrence
of `sep`, or the empty string when `sep` does not occur (`sep` is the
non-empty literal `"whelk/"` at the only call site). -/
def partition_after (s sep : String) : String := String.mk (after_sep sep.data s.data)

/-- Python `sep.join(xs)`. -/
def join_with (sep : String) : List String → String
  | [] => ""
  | [x] => x
  | x :: y :: rest => x ++ sep ++ join_with sep (y :: rest)

/-- Python `repr` of a string as used inside an f-string formatting of a
list (shallow: single quotes, no inner escaping). -/
def py_str_repr (s : String) : String := "\x27" ++ s ++ "\x27"

/-- Python f-string rendering of a list of strings, e.g. `['a', 'b']`. -/
def py_list_repr (xs : List String) : String :=
  "[" ++ join_with (", ") (xs.map py_str_repr) ++ "]"

/-- Python f-string rendering of a tuple of strings, as in the
`ValueError` message of tracer.py line 43 (shallow: used with 3 elements). -/
def py_tuple_repr (xs : List String) : String :=
  "(" ++ join_with (", ") (xs.map py_str_repr) ++ ")"

/-- JSON string escaping (shallow model of `json.dumps` escaping: quote and
backslash; the record fields the claims touch contain neither). -/
def json_escape (s : String) : String :=
  String.join (s.data.map (fun c =>
    if c = Char.ofNat 34 then "\\\"" else
    if c = Char.ofNat 92 then "\\\\" else String.singleton c))

/-- JSON rendering of a string. -/
def json_str (s : String) : String := "\"" ++ json_escape s ++ "\""

/-- JSON rendering of a boolean. -/
def json_bool (b : Bool) : String := if b then "true" else "false"

/-- One entry of the live call stack as `inspect.stack()` exposes it:
file name, function name, line number. -/
structure Frame where
  filename : String
  function : String
  lineno : Nat
deriving DecidableEq

/-- The `stats` dictionary built fresh per call (tracer.py lines 60-72),
with the key order of the source. -/
structure Stats where
  function_name : String
  called_by : String
  start : Int
  duration : Int
  traceback : Bool
  skipped : Bool
  msg : String
  test : String
  source : String
  source_class : String
  desc : String
deriving DecidableEq

/-- `json.dumps(stats)` (tracer.py line 154): keys in insertion order,
Python booleans rendered as JSON `true`/`false`. -/
def dumps (st : Stats) : String :=
  "\x7b" ++ join_with (", ")
    [ json_str ("function_name") ++ ": " ++ json_str st.function_name
    , json_str ("called_by") ++ ": " ++ json_str st.called_by
    , json_str ("start") ++ ": " ++ toString st.start
    , json_str ("duration") ++ ": " ++ toString st.duration
    , json_str ("traceback") ++ ": " ++ json_bool st.traceback
    , json_str ("skipped") ++ ": " ++ json_bool st.skipped
    , json_str ("msg") ++ ": " ++ json_str st.msg
    , json_str ("test") ++ ": " ++ json_str st.test
    , json_str ("source") ++ ": " ++ json_str st.source
    , json_str ("source_class") ++ ": " ++ json_str st.source_class
    , json_str ("desc") ++ ": " ++ json_str st.desc ] ++ "\x7d"

/-- Severity levels of the `logging` sink used by the tracer. -/
inductive LogLevel where
  | debug
  | info
  | warning
  | error
deriving DecidableEq

/-- One emitted log event: severity and message. -/
structure LogEvent where
  level : LogLevel
  message : String
deriving DecidableEq

/-- The mutable locals of the classification loop of tracer.py lines 93-142:
the `tag` local plus the `stats` keys the loop writes, and the accumulated
`call_strings`. -/
structure WalkState where
  tag : String
  called_by : String
  test : String
  source : String
  call_strings : List String
deriving DecidableEq

/-- The call string of one frame (tracer.py lines 108-110):
`":".join((basename(filename), function, str(lineno)))`. -/
def render_frame (f : Frame) : String :=
  join_with (":") [basename f.filename, f.function, toString f.lineno]

/-- The loop of tracer.py lines 102-142: walk the stack outward from index
`i`, appending call strings (when `call_stack` is set and the frame is not
named `tracer`), recording `called_by` at index 1, and stopping at the first
frame that is test-prefixed or the nose cleanup or setup hook. -/
def walkStack (call_stack : Bool) : Nat → List Frame → WalkState → WalkState
  | _, [], st => st
  | i, f :: rest, st =>
    let cs := if call_stack && f.function != "tracer"
              then st.call_strings ++ [render_frame f] else st.call_strings
    let cb := if i = 1 then f.function else st.called_by
    if starts_with f.function ("test_") then
      ⟨if i = 1 then "test_function" else "test_subfunction", cb, f.function,
       partition_after (f.filename ++ " [" ++ toString f.lineno ++ "]") ("whelk/"), cs⟩
    else if f.function = "_run_cleanups" then
      ⟨if cb = "_run_user" then "cleanup_function" else "cleanup_subfunction", cb,
       "cleanup", st.source, cs⟩
    else if f.function = "_run_setup" then
      ⟨if cb = "_run_setup" then "setup_function" else "setup_subfunction", cb,
       "setup", st.source, cs⟩
    else walkStack call_stack (i + 1) rest ⟨st.tag, cb, st.test, st.source, cs⟩

/-- Classification performed in the finishing phase (tracer.py lines 93-142):
`skipped` forces tag `skipped_test`; else a test-prefixed own name forces tag
`test`; otherwise the stack walk runs starting from the default tag
`other_function`.  In the first two cases the loop never runs, so
`called_by`, `test`, `source` and `call_strings` keep their initial empty
values. -/
def classify (call_stack : Bool) (skipped : Bool) (function_name : String)
    (stack : List Frame) : WalkState :=
  if skipped then ⟨"skipped_test", "", "", "", []⟩
  else if starts_with function_name ("test_") then ⟨"test", "", "", "", []⟩
  else walkStack call_stack 0 stack ⟨"other_function", "", "", "", []⟩

/-- Outcome of calling the decorated target: a normal return, the
distinguished skip signal with its message, or any other exception with its
type name and message. -/
inductive Outcome (α : Type) where
  | ret (v : α)
  | testSkipped (msg : String)
  | exc (ty : String) (msg : String)
deriving DecidableEq

/-- Whether the outcome is the distinguished skip signal. -/
def Outcome.skips {α : Type} : Outcome α → Bool
  | .testSkipped _ => true
  | _ => false

/-- The trace configuration bound at wrap time (tracer.py lines 37-40). -/
structure TraceConfig where
  desc : String
  source_class : String
  dump_args : String
  call_stack : Bool
deriving DecidableEq

/-- The pieces of the single trace log line assembled by the finishing phase
(tracer.py lines 144-158), kept structured so theorems can speak about the
components as well as the whole line. -/
structure Emission where
  tag : String
  stats : Stats
  stack_string : String
  function_args : String
  call_strings : List String
  level : LogLevel
  log_message : String
deriving DecidableEq

/-- Everything observable about one invocation of the wrapper: the outcome
propagated to the caller, the log events emitted (in order), the structured
trace emission (`none` when the finishing phase raised), and the final
`stats` record. -/
structure TraceResult (α : Type) where
  result : Outcome α
  logs : List LogEvent
  emission : Option Emission
  stats : Stats
deriving DecidableEq

/-- The wrapper `tracer` itself (tracer.py lines 55-161).  `behavior` is the
outcome of `decorated_function(*args, **kwargs)`; `args_repr` and
`kwargs_repr` are the f-string renderings of `args` and `kwargs`;
`start_time` and `finish_time` are the two `time.time()` readings; `stack`
is what `inspect.stack()` returns during the finishing phase;
`finish_exception` is `some e` when the finishing phase's body raises an
exception rendered as `e` (caught on lines 159-160), else `none`. -/
def tracer {α : Type} (cfg : TraceConfig) (function_name : String)
    (behavior : Outcome α) (args_repr kwargs_repr : String)
    (start_time finish_time : ℚ) (stack : List Frame)
    (finish_exception : Option String) : TraceResult α :=
  let stats0 : Stats :=
    ⟨function_name, "", pyInt start_time, 0, false, false, "", "", "",
     cfg.source_class, cfg.desc⟩
  let step : Stats × List LogEvent :=
    match behavior with
    | .ret _ => (stats0, [])
    | .testSkipped m =>
        ({ stats0 with msg := m, skipped := true },
         [⟨LogLevel.info, "Skipped " ++ function_name ++ " " ++ m⟩])
    | .exc _ m => ({ stats0 with traceback := true, msg := m }, [])
  let stats1 := step.1
  let preLogs := step.2
  match finish_exception with
  | some e =>
      ⟨behavior,
       preLogs ++ [⟨LogLevel.warning, "TRACER Failed to save call trace - " ++ e⟩],
       none, stats1⟩
  | none =>
      let stats2 := { stats1 with duration := pyInt (finish_time - (stats1.start : ℚ)) }
      let w := classify cfg.call_stack stats2.skipped function_name stack
      let stats3 := { stats2 with called_by := w.called_by, test := w.test, source := w.source }
      let tag := w.tag
      let function_args :=
        if cfg.dump_args = TRIGGER_ALWAYS ∨ tag = "test" ∨
           (cfg.dump_args = TRIGGER_ON_FAILURE ∧ stats3.traceback = true ∧ stats3.skipped = false)
        then " args=" ++ args_repr ++ " kwargs=" ++ kwargs_repr
        else ""
      let stack_string :=
        if cfg.call_stack then " stack=" ++ py_list_repr w.call_strings else ""
      let log_message :=
        "TRACER <" ++ tag ++ ">" ++ dumps stats3 ++ "</" ++ tag ++ ">" ++
        stack_string ++ function_args
      let level := if tag = "test" ∧ stats3.traceback = true then LogLevel.error else LogLevel.debug
      ⟨behavior, preLogs ++ [⟨level, log_message⟩],
       some ⟨tag, stats3, stack_string, function_args, w.call_strings, level, log_message⟩,
       stats3⟩

/-- The classified tag of the emitted trace line (empty when no line was
emitted because the finishing phase raised). -/
def emitted_tag {α : Type} (r : TraceResult α) : String :=
  match r.emission with
  | some e => e.tag
  | none => ""

/-- The argument suffix of the emitted trace line (empty when arguments were
omitted or no line was emitted). -/
def emitted_args {α : Type} (r : TraceResult α) : String :=
  match r.emission with
  | some e => e.function_args
  | none => ""

/-- The stack suffix of the emitted trace line. -/
def emitted_stack {α : Type} (r : TraceResult α) : String :=
  match r.emission with
  | some e => e.stack_string
  | none => ""

/-- The list of call strings collected for the emitted trace line. -/
def emitted_call_strings {α : Type} (r : TraceResult α) : List String :=
  match r.emission with
  | some e => e.call_strings
  | none => []

/-- The severity the emitted trace line was logged at (`debug` when no line
was emitted). -/
def emitted_level {α : Type} (r : TraceResult α) : LogLevel :=
  match r.emission with
  | some e => e.level
  | none => LogLevel.debug

/-- The keyword options accepted by `trace_function_call` (tracer.py lines
37-40): each is `none` when the caller did not pass it, so that the `get`
defaults of the source apply. -/
structure TraceOptions where
  desc : Option String
  source_class : Option String
  dump_args : Option String
  call_stack : Option Bool
deriving DecidableEq

/-- `trace_function_call`'s configuration phase (tracer.py lines 37-43):
reads the options with their defaults and validates `dump_args` against
`VALID_TRIGGERS`, raising `ValueError` (modelled as `Except.error`) before
any wrapped callable is produced; on success the bound `TraceConfig` of the
returned wrapper. -/
def trace_function_call (trace_options : TraceOptions) : Except String TraceConfig :=
  let desc := trace_options.desc.getD ("")
  let source_class := trace_options.source_class.getD ("")
  let dump_args := trace_options.dump_args.getD TRIGGER_ON_FAILURE
  let call_stack := trace_options.call_stack.getD false
  if dump_args ∉ VALID_TRIGGERS then
    Except.error ("dump_args value \x27" ++ dump_args ++ "\x27 invalid - must be one of: "
      ++ py_tuple_repr VALID_TRIGGERS)
  else
    Except.ok ⟨desc, source_class, dump_args, call_stack⟩

/-- Calling `trace_function_call` with no keyword options at all. -/
def empty_trace_options : TraceOptions := ⟨none, none, none, none⟩

/-- A member of a class's own `__dict__` as `trace_class_methods` sees it:
an ordinary function (`types.FunctionType`), a static method, a property,
some other attribute, or an already-traced wrapper (itself a
`types.FunctionType` in Python, hence `isFunctionType` is true for it). -/
inductive ClassMember where
  | functionType (id : String)
  | staticMember (id : String)
  | propertyMember (id : String)
  | otherMember (id : String)
  | traced (original : ClassMember) (cfg : TraceConfig)
deriving DecidableEq

/-- `isinstance(func, types.FunctionType)` (tracer.py line 190). -/
def isFunctionType : ClassMember → Bool
  | .functionType _ => true
  | .traced _ _ => true
  | _ => false

/-- A Python class as the bulk applier sees it: its name and its own
(non-inherited) `__dict__` as an ordered association list.  Members
inherited from base classes do not appear in `dict`, exactly as they do not
appear in `cls.__dict__`. -/
structure PyClass where
  name : String
  dict : List (String × ClassMember)
deriving DecidableEq

/-- The body of the loop of `class_decorator` (tracer.py lines 186-198):
an eligible member (a `FunctionType` whose name does not start with `__`)
is replaced by `trace_function_call(func, source_class=cls.__name__,
call_stack=..., dump_args=..., desc=...)`; any other member is untouched.
A `ValueError` from `trace_function_call` propagates. -/
def class_decorator_entry (cls_name : String) (call_stack : Bool)
    (dump_args desc : String) : String × ClassMember → Except String (String × ClassMember)
  | (name, m) =>
    if isFunctionType m && !(starts_with name ("__")) then
      match trace_function_call ⟨some desc, some cls_name, some dump_args, some call_stack⟩ with
      | .ok cfg => .ok (name, .traced m cfg)
      | .error e => .error e
    else .ok (name, m)

/-- The loop of tracer.py lines 186-198 over the class's own members, in
declaration order; a raised `ValueError` aborts the loop. -/
def decorate_members (cls_name : String) (call_stack : Bool) (dump_args desc : String) :
    List (String × ClassMember) → Except String (List (String × ClassMember))
  | [] => .ok []
  | p :: rest =>
    match class_decorator_entry cls_name call_stack dump_args desc p,
          decorate_members cls_name call_stack dump_args desc rest with
    | .ok q, .ok qs => .ok (q :: qs)
    | .error e, _ => .error e
    | _, .error e => .error e

/-- `trace_class_methods(call_stack, dump_args, desc)` applied to a class
(tracer.py lines 177-199): wraps each eligible own member. -/
def trace_class_methods (call_stack : Bool) (dump_args desc : String)
    (cls : PyClass) : Except String PyClass :=
  match decorate_members cls.name call_stack dump_args desc cls.dict with
  | .ok d => .ok ⟨cls.name, d⟩
  | .error e => .error e

/-- `trace_class_methods` invoked with all parameters at their declared
defaults (tracer.py line 177: `call_stack=True, dump_args=TRIGGER_ON_FAILURE,
desc=""`). -/
def trace_class_methods_defaults (cls : PyClass) : Except String PyClass :=
  trace_class_methods true TRIGGER_ON_FAILURE ("") cls

/-- The frames the classification walk visits: every frame up to and
including the first one the walk stops at (a test-prefixed frame or the
nose cleanup or setup hook; all frames when none matches). -/
def visited_frames : List Frame → List Frame
  | [] => []
  | f :: rest =>
    if starts_with f.function ("test_") = true ∨ f.function = "_run_cleanups" ∨
       f.function = "_run_setup"
    then [f] else f :: visited_frames rest

/-- Stated from the spec's wording for comparison with the code: the call
strings the spec expects when call-stack capture is enabled - every visited
frame not named `tracer`, rendered as `file:function:line`, in stack
order. -/
def spec_call_strings (stack : List Frame) : List String :=
  ((visited_frames stack).filter (fun f => f.function != "tracer")).map render_frame

/-- The argument suffix built on tracer.py line 147 is never the empty
string: it starts with a space. -/
theorem args_suffix_ne_empty (a k : String) : " args=" ++ a ++ " kwargs=" ++ k ≠ "" := by
  intro h
  have h1 := congrArg String.length h
  have h2 : String.length (" args=") = 6 := rfl
  have h3 : String.length (" kwargs=") = 8 := rfl
  have h4 : String.length ("") = 0 := rfl
  simp only [String.length_append] at h1
  omega

/-- A frame the walk stops at (test-prefixed, cleanup hook or setup hook) is
never named `tracer`. -/
theorem stop_frame_ne_tracer (f : Frame)
    (h : starts_with f.function ("test_") = true ∨ f.function = "_run_cleanups" ∨
         f.function = "_run_setup") :
    (f.function != "tracer") = true := by
  rcases eq_or_ne f.function ("tracer") with he | hne
  · rw [he] at h
    rcases h with h | h | h
    · exact absurd h (by decide)
    · exact absurd h (by decide)
    · exact absurd h (by decide)
  · simp [hne]

/-- Once the walk is past index 1, `called_by` is never written again. -/
theorem walkStack_called_by_stable (cs : Bool) (stk : List Frame) :
    ∀ (i : Nat) (st : WalkState), 2 ≤ i →
    (walkStack cs i stk st).called_by = st.called_by := by
  induction stk with
  | nil => intro i st h; rfl
  | cons f rest ih =>
    intro i st h
    have hne : ¬ (i = 1) := by omega
    simp only [walkStack]
    split
    · simp [hne]
    · split
      · simp [hne]
      · split
        · simp [hne]
        · exact (ih (i + 1) _ (by omega)).trans (by simp [hne])

/-- With capture enabled, the walk appends exactly the rendered visited
frames not named `tracer`, whatever index it starts at. -/
theorem walkStack_call_strings (stk : List Frame) :
    ∀ (i : Nat) (st : WalkState),
    (walkStack true i stk st).call_strings = st.call_strings ++ spec_call_strings stk := by
  induction stk with
  | nil => intro i st; simp [walkStack, spec_call_strings, visited_frames]
  | cons f rest ih =>
    intro i st
    have d1 : starts_with ("_run_cleanups") ("test_") = false := by decide
    have d2 : starts_with ("_run_setup") ("test_") = false := by decide
    have d3 : starts_with ("tracer") ("test_") = false := by decide
    by_cases h1 : starts_with f.function ("test_") = true
    · have hb := stop_frame_ne_tracer f (Or.inl h1)
      simp [walkStack, spec_call_strings, visited_frames, h1, hb]
    · by_cases h2 : f.function = "_run_cleanups"
      · have hb := stop_frame_ne_tracer f (Or.inr (Or.inl h2))
        simp [walkStack, spec_call_strings, visited_frames, h1, h2, hb, d1]
      · by_cases h3 : f.function = "_run_setup"
        · have hb := stop_frame_ne_tracer f (Or.inr (Or.inr h3))
          simp [walkStack, spec_call_strings, visited_frames, h1, h2, h3, hb, d2]
        · rcases eq_or_ne f.function ("tracer") with he | hne
          · simp [walkStack, spec_call_strings, visited_frames, h1, h2, h3, he, ih, d3]
          · simp [walkStack, spec_call_strings, visited_frames, h1, h2, h3, hne, ih]

/-- When the walk runs on a stack whose innermost frame is the wrapper's own
(named `tracer`), `called_by` ends up as the function name of the frame at
depth 1, whichever rule later stops the walk. -/
theorem classify_called_by (cs : Bool) (fn file0 : String) (line0 : Nat)
    (f1 : Frame) (rest : List Frame) (h2 : starts_with fn ("test_") = false) :
    (classify cs false fn (⟨file0, "tracer", line0⟩ :: f1 :: rest)).called_by = f1.function := by
  have e1 : starts_with ("tracer") ("test_") = false := by decide
  have e2 : ("tracer" : String) ≠ "_run_cleanups" := by decide
  have e3 : ("tracer" : String) ≠ "_run_setup" := by decide
  simp only [classify, Bool.false_eq_true, if_false, h2, walkStack, e1, e2, e3,
    if_neg, ite_false]
  split
  · simp
  · split
    · simp
    · split
      · simp
      · exact (walkStack_called_by_stable cs rest 2 _ (le_refl 2)).trans (by simp)

/-- C1: for every target callable outcome (return, skip signal, or any
other error) and whether or not the finishing phase itself fails, the
wrapped call propagates exactly the target's outcome - same constructor,
same value or exception type and message; the wrapper never suppresses,
converts or replaces it. -/
theorem tracer_transparent {α : Type} (cfg : TraceConfig) (fn : String) (b : Outcome α)
    (a k : String) (st ft : ℚ) (stack : List Frame) (fe : Option String) :
    (tracer cfg fn b a k st ft stack fe).result = b := by
  cases b <;> cases fe <;> rfl

/-- C2 counterexample: with `dump_args = TRIGGER_NEVER` and a target whose
own name starts with `test_` (so the classified tag is `test`), the emitted
line does include the arguments - refuting the claim's "under policy NEVER
arguments are never emitted". -/
theorem tracer_never_policy_emits_args :
    emitted_args (tracer ⟨"", "", TRIGGER_NEVER, false⟩ "test_foo" (Outcome.ret (0 : Nat))
        "()" "()" 0 0 [] none) = " args=() kwargs=()" ∧
    emitted_tag (tracer ⟨"", "", TRIGGER_NEVER, false⟩ "test_foo" (Outcome.ret (0 : Nat))
        "()" "()" 0 0 [] none) = "test" := by
  constructor <;> decide

/-- C2 (amended): arguments are included in the emitted line exactly when
the policy is `TRIGGER_ALWAYS`, or the classified tag is `test`, or the
policy is `TRIGGER_ON_FAILURE` with a traceback and no skip; in particular
under `TRIGGER_NEVER` arguments are emitted exactly when the tag is `test`
(a test-prefixed, non-skipped target), and under `TRIGGER_ALWAYS` they are
always emitted. -/
theorem tracer_args_gating {α : Type} (cfg : TraceConfig) (fn : String) (b : Outcome α)
    (a k : String) (st ft : ℚ) (stack : List Frame) :
    emitted_args (tracer cfg fn b a k st ft stack none) ≠ "" ↔
      (cfg.dump_args = TRIGGER_ALWAYS ∨
       emitted_tag (tracer cfg fn b a k st ft stack none) = "test" ∨
       (cfg.dump_args = TRIGGER_ON_FAILURE ∧
        (tracer cfg fn b a k st ft stack none).stats.traceback = true ∧
        (tracer cfg fn b a k st ft stack none).stats.skipped = false)) := by
  have hne := args_suffix_ne_empty a k
  cases b <;> simp [tracer, emitted_args, emitted_tag] <;> tauto

/-- C3: when the target raises the skip signal, the wrapper re-raises the
same signal, marks the record skipped, never marks a traceback, records the
signal's message, emits an informational log line, and (when the finishing
phase completes) tags the record `skipped_test` regardless of the target's
own name and of the stack content. -/
theorem tracer_skip_isolation {α : Type} (cfg : TraceConfig) (fn m a k : String)
    (st ft : ℚ) (stack : List Frame) (fe : Option String) :
    (tracer cfg fn (Outcome.testSkipped m : Outcome α) a k st ft stack fe).result =
      Outcome.testSkipped m ∧
    (tracer cfg fn (Outcome.testSkipped m : Outcome α) a k st ft stack fe).stats.skipped = true ∧
    (tracer cfg fn (Outcome.testSkipped m : Outcome α) a k st ft stack fe).stats.traceback = false ∧
    (tracer cfg fn (Outcome.testSkipped m : Outcome α) a k st ft stack fe).stats.msg = m ∧
    (⟨LogLevel.info, "Skipped " ++ fn ++ " " ++ m⟩ : LogEvent) ∈
      (tracer cfg fn (Outcome.testSkipped m : Outcome α) a k st ft stack fe).logs ∧
    emitted_tag (tracer cfg fn (Outcome.testSkipped m : Outcome α) a k st ft stack none) =
      "skipped_test" := by
  refine ⟨?_, ?_, ?_, ?_, ?_, ?_⟩ <;> cases fe <;> simp [tracer, emitted_tag, classify]

/-- C4: when the finishing phase raises, the wrapper logs a warning naming
the failure and still propagates exactly the target's own outcome, which is
the same outcome an invocation with a healthy finishing phase propagates -
instrumentation failures are swallowed and never mask the traced call. -/
theorem tracer_finish_failure_swallowed {α : Type} (cfg : TraceConfig) (fn : String)
    (b : Outcome α) (a k : String) (st ft : ℚ) (stack : List Frame) (e : String) :
    (tracer cfg fn b a k st ft stack (some e)).result = b ∧
    (⟨LogLevel.warning, "TRACER Failed to save call trace - " ++ e⟩ : LogEvent) ∈
      (tracer cfg fn b a k st ft stack (some e)).logs ∧
    (tracer cfg fn b a k st ft stack (some e)).result =
      (tracer cfg fn b a k st ft stack none).result := by
  refine ⟨?_, ?_, ?_⟩ <;> cases b <;> simp [tracer]

/-- C5 counterexample: with `start_time = 9/10` and `finish_time = 1` the
recorded duration is `1`, while the floor of the elapsed wall-clock time
`finish - start = 1/10` is `0` - the code floors `finish` minus the already
floored start timestamp, not the true elapsed time. -/
theorem tracer_duration_not_floor_of_elapsed :
    (tracer ⟨"", "", TRIGGER_ON_FAILURE, false⟩ "f" (Outcome.ret (0 : Nat)) "" ""
      (9/10) 1 [] none).stats.duration = 1 ∧
    ⌊(1 : ℚ) - 9/10⌋ = 0 := by
  constructor
  · have h1 : pyInt (9/10) = 0 := by
      rw [pyInt, if_pos (by norm_num : (0 : ℚ) ≤ 9/10)]
      norm_num
    have h2 : pyInt (1 : ℚ) = 1 := by
      rw [pyInt, if_pos (by norm_num : (0 : ℚ) ≤ 1)]
      exact Int.floor_one
    simp [tracer, h1, h2]
  · norm_num

/-- C5 (amended): for non-negative, non-decreasing clock readings the record
stores `startTimestamp = ⌊start⌋` and
`durationSeconds = ⌊finish - startTimestamp⌋` (the floor of the time elapsed
since the *recorded integer* start, not since the raw start), and the
duration is never negative. -/
theorem tracer_duration_floor {α : Type} (cfg : TraceConfig) (fn : String) (b : Outcome α)
    (a k : String) (st ft : ℚ) (stack : List Frame)
    (h0 : 0 ≤ st) (h1 : st ≤ ft) :
    (tracer cfg fn b a k st ft stack none).stats.start = ⌊st⌋ ∧
    (tracer cfg fn b a k st ft stack none).stats.duration = ⌊ft - (⌊st⌋ : ℚ)⌋ ∧
    0 ≤ (tracer cfg fn b a k st ft stack none).stats.duration := by
  have hfl : (⌊st⌋ : ℚ) ≤ st := Int.floor_le st
  have hnn : (0 : ℚ) ≤ ft - (⌊st⌋ : ℚ) := by linarith
  have hst : pyInt st = ⌊st⌋ := by rw [pyInt, if_pos h0]
  have hdur : pyInt (ft - (⌊st⌋ : ℚ)) = ⌊ft - (⌊st⌋ : ℚ)⌋ := by rw [pyInt, if_pos hnn]
  refine ⟨?_, ?_, ?_⟩
  · cases b <;> simp [tracer, hst]
  · cases b <;> simp [tracer, hst, hdur]
  · have hge : (0 : Int) ≤ ⌊ft - (⌊st⌋ : ℚ)⌋ := Int.le_floor.mpr (by exact_mod_cast hnn)
    cases b <;> simpa [tracer, hst, hdur] using hge

/-- C5 witness: the amended statement instantiated at `start = 0`,
`finish = 1`. -/
theorem tracer_duration_floor_witness :
    (tracer ⟨"", "", TRIGGER_ON_FAILURE, false⟩ "f" (Outcome.ret (0 : Nat)) "" ""
      0 1 [] none).stats.start = ⌊(0 : ℚ)⌋ ∧
    (tracer ⟨"", "", TRIGGER_ON_FAILURE, false⟩ "f" (Outcome.ret (0 : Nat)) "" ""
      0 1 [] none).stats.duration = ⌊(1 : ℚ) - (⌊(0 : ℚ)⌋ : ℚ)⌋ ∧
    0 ≤ (tracer ⟨"", "", TRIGGER_ON_FAILURE, false⟩ "f" (Outcome.ret (0 : Nat)) "" ""
      0 1 [] none).stats.duration :=
  tracer_duration_floor ⟨"", "", TRIGGER_ON_FAILURE, false⟩ "f" (Outcome.ret (0 : Nat)) "" ""
    0 1 [] (le_refl 0) zero_le_one

/-- C6 counterexample: for a target named `test_foo` the classification walk
never runs, so `called_by` stays empty even though the stack has a depth-1
frame named `main` - refuting "for every invocation ... independent of the
assigned tag (including the test and skipped_test cases)". -/
theorem tracer_called_by_empty_for_test :
    (tracer ⟨"", "", TRIGGER_ON_FAILURE, false⟩ "test_foo" (Outcome.ret (0 : Nat)) "" "" 0 0
      [⟨"t.py", "tracer", 10⟩, ⟨"m.py", "main", 5⟩] none).stats.called_by = "" ∧
    ([⟨"t.py", "tracer", 10⟩, ⟨"m.py", "main", 5⟩] : List Frame).getD 1 ⟨"", "", 0⟩ =
      ⟨"m.py", "main", 5⟩ := by
  constructor <;> decide

/-- C6 (amended): whenever the classification walk runs - the call was not
skipped and the target's own name is not test-prefixed - `calledBy` is the
function name of the frame at depth 1 (the wrapper's own frame, named
`tracer`, being depth 0), independent of which classification rule later
matches; when the walk is bypassed (tag `test` or `skipped_test`),
`calledBy` stays empty. -/
theorem tracer_called_by_depth1 {α : Type} (cfg : TraceConfig) (fn : String) (b : Outcome α)
    (a k : String) (st ft : ℚ) (file0 : String) (line0 : Nat) (f1 : Frame) (rest : List Frame)
    (h1 : b.skips = false) (h2 : starts_with fn ("test_") = false) :
    (tracer cfg fn b a k st ft (⟨file0, "tracer", line0⟩ :: f1 :: rest) none).stats.called_by =
      f1.function := by
  cases b with
  | testSkipped m => simp [Outcome.skips] at h1
  | ret v => simp [tracer, classify_called_by cfg.call_stack fn file0 line0 f1 rest h2]
  | exc t m => simp [tracer, classify_called_by cfg.call_stack fn file0 line0 f1 rest h2]

/-- C6 witness: the amended statement instantiated for a helper called from
`main`. -/
theorem tracer_called_by_depth1_witness :
    (tracer ⟨"", "", TRIGGER_ON_FAILURE, false⟩ "helper" (Outcome.ret (0 : Nat)) "" "" 0 0
      [⟨"t.py", "tracer", 10⟩, ⟨"m.py", "main", 5⟩] none).stats.called_by = "main" :=
  tracer_called_by_depth1 ⟨"", "", TRIGGER_ON_FAILURE, false⟩ "helper" (Outcome.ret (0 : Nat))
    "" "" 0 0 ("t.py") 10 ⟨"m.py", "main", 5⟩ [] (by decide) (by decide)

/-- C7 counterexample: with call-stack capture enabled but a test-named
target (tag `test`), the walk never runs and the emitted stack list is
empty, although the stack holds a visitable frame `main` that the claim
says must be rendered - refuting "independent of the classification
outcome". -/
theorem tracer_stack_capture_claim_false :
    emitted_call_strings (tracer ⟨"", "", TRIGGER_ON_FAILURE, true⟩ "test_foo"
      (Outcome.ret (0 : Nat)) "" "" 0 0
      [⟨"t.py", "tracer", 10⟩, ⟨"m.py", "main", 5⟩] none) = [] ∧
    spec_call_strings [⟨"t.py", "tracer", 10⟩, ⟨"m.py", "main", 5⟩] = ["m.py:main:5"] ∧
    emitted_stack (tracer ⟨"", "", TRIGGER_ON_FAILURE, true⟩ "test_foo"
      (Outcome.ret (0 : Nat)) "" "" 0 0
      [⟨"t.py", "tracer", 10⟩, ⟨"m.py", "main", 5⟩] none) = " stack=[]" := by
  refine ⟨?_, ?_, ?_⟩ <;> decide

/-- C7 (amended): whenever call-stack capture is enabled *and* the
classification walk runs (the call was not skipped and the target's own
name is not test-prefixed), the emitted stack suffix holds every visited
frame except those named `tracer`, rendered `file:function:line` in
innermost-first order; when the walk is bypassed (tag `test` or
`skipped_test`) the emitted stack list is empty. -/
theorem tracer_stack_capture {α : Type} (cfg : TraceConfig) (fn : String) (b : Outcome α)
    (a k : String) (st ft : ℚ) (stack : List Frame)
    (h1 : b.skips = false) (h2 : starts_with fn ("test_") = false)
    (h3 : cfg.call_stack = true) :
    emitted_call_strings (tracer cfg fn b a k st ft stack none) = spec_call_strings stack ∧
    emitted_stack (tracer cfg fn b a k st ft stack none) =
      " stack=" ++ py_list_repr (spec_call_strings stack) := by
  cases b with
  | testSkipped m => simp [Outcome.skips] at h1
  | ret v =>
    refine ⟨?_, ?_⟩ <;>
      simp [tracer, emitted_call_strings, emitted_stack, classify, h2, h3,
        walkStack_call_strings]
  | exc t m =>
    refine ⟨?_, ?_⟩ <;>
      simp [tracer, emitted_call_strings, emitted_stack, classify, h2, h3,
        walkStack_call_strings]

/-- C7 witness: the amended statement instantiated for a helper called from
`main` with capture enabled. -/
theorem tracer_stack_capture_witness :
    emitted_call_strings (tracer ⟨"", "", TRIGGER_ON_FAILURE, true⟩ "helper"
      (Outcome.ret (0 : Nat)) "" "" 0 0
      [⟨"t.py", "tracer", 10⟩, ⟨"m.py", "main", 5⟩] none) =
      spec_call_strings [⟨"t.py", "tracer", 10⟩, ⟨"m.py", "main", 5⟩] ∧
    emitted_stack (tracer ⟨"", "", TRIGGER_ON_FAILURE, true⟩ "helper"
      (Outcome.ret (0 : Nat)) "" "" 0 0
      [⟨"t.py", "tracer", 10⟩, ⟨"m.py", "main", 5⟩] none) =
      " stack=" ++ py_list_repr (spec_call_strings [⟨"t.py", "tracer", 10⟩, ⟨"m.py", "main", 5⟩]) :=
  tracer_stack_capture ⟨"", "", TRIGGER_ON_FAILURE, true⟩ "helper" (Outcome.ret (0 : Nat))
    "" "" 0 0 [⟨"t.py", "tracer", 10⟩, ⟨"m.py", "main", 5⟩] (by decide) (by decide) rfl

/-- C8: wrapping with a `dump_args` value outside `VALID_TRIGGERS` raises
`ValueError` synchronously at wrap time - the configuration phase returns
the error before any wrapped callable (a `TraceConfig`-bearing wrapper) is
produced, so no call to the target can ever occur. -/
theorem trace_function_call_invalid_trigger (opts : TraceOptions) (d : String)
    (h1 : opts.dump_args = some d) (h2 : d ∉ VALID_TRIGGERS) :
    trace_function_call opts =
      Except.error ("dump_args value \x27" ++ d ++ "\x27 invalid - must be one of: " ++
        py_tuple_repr VALID_TRIGGERS) := by
  simp [trace_function_call, h1, h2]

/-- C8 witness: the configuration failure at the spec's scenario
`dump_args = "bogus"`. -/
theorem trace_function_call_invalid_trigger_witness :
    trace_function_call ⟨none, none, some ("bogus"), none⟩ =
      Except.error ("dump_args value \x27" ++ "bogus" ++ "\x27 invalid - must be one of: " ++
        py_tuple_repr VALID_TRIGGERS) :=
  trace_function_call_invalid_trigger ⟨none, none, some ("bogus"), none⟩ "bogus" rfl (by decide)

/-- C9: the bulk applier rewrites exactly the own members that are ordinary
functions whose names do not start with `__`, wrapping each with
`source_class` equal to the class name plus the caller-supplied options;
static methods, properties, other attributes and double-underscore names
are left untouched (inherited members never appear in the own member
set). -/
theorem trace_class_methods_wraps (cls : PyClass) (cs : Bool) (da de : String)
    (h : da ∈ VALID_TRIGGERS) :
    trace_class_methods cs da de cls = Except.ok ⟨cls.name,
      cls.dict.map (fun p =>
        if isFunctionType p.2 && !(starts_with p.1 ("__")) then
          (p.1, ClassMember.traced p.2 ⟨de, cls.name, da, cs⟩)
        else p)⟩ := by
  have hcfg : trace_function_call ⟨some de, some cls.name, some da, some cs⟩ =
      Except.ok ⟨de, cls.name, da, cs⟩ := by
    simp [trace_function_call, h]
  have hmap : ∀ (l : List (String × ClassMember)),
      decorate_members cls.name cs da de l = Except.ok (l.map (fun p =>
        if isFunctionType p.2 && !(starts_with p.1 ("__")) then
          (p.1, ClassMember.traced p.2 ⟨de, cls.name, da, cs⟩)
        else p)) := by
    intro l
    induction l with
    | nil => rfl
    | cons p rest ih =>
      cases p with
      | mk n m =>
        by_cases hp : (isFunctionType m && !(starts_with n ("__"))) = true
        all_goals simp only [Bool.and_eq_true, Bool.not_eq_true'] at hp
        · simp [decorate_members, class_decorator_entry, hp, hcfg, ih]
        · simp [decorate_members, class_decorator_entry, hp, ih]
  rw [trace_class_methods, hmap]

/-- C9 witness: a class with an ordinary method, a dunder method, and a
static member - only the ordinary method gets wrapped. -/
theorem trace_class_methods_wraps_witness :
    trace_class_methods true TRIGGER_NEVER ("d") ⟨"Demo",
      [("run", ClassMember.functionType ("run")),
       ("__init__", ClassMember.functionType ("__init__")),
       ("helper", ClassMember.staticMember ("helper"))]⟩ =
    Except.ok ⟨"Demo",
      [("run", ClassMember.traced (ClassMember.functionType ("run"))
          ⟨"d", "Demo", TRIGGER_NEVER, true⟩),
       ("__init__", ClassMember.functionType ("__init__")),
       ("helper", ClassMember.staticMember ("helper"))]⟩ :=
  trace_class_methods_wraps ⟨"Demo",
      [("run", ClassMember.functionType ("run")),
       ("__init__", ClassMember.functionType ("__init__")),
       ("helper", ClassMember.staticMember ("helper"))]⟩ true TRIGGER_NEVER ("d") (by decide)

/-- C10: the bulk applier's declared defaults enable call-stack capture
(`call_stack=True` on tracer.py line 177), while wrapping a single callable
with no options leaves it disabled (`get('call_stack', False)` on line 40):
the same method gets `call_stack = true` through the class decorator but
`call_stack = false` through a bare `trace_function_call`. -/
theorem trace_defaults_call_stack_differs :
    trace_class_methods_defaults ⟨"C", [("m", ClassMember.functionType ("m"))]⟩ =
      Except.ok ⟨"C", [("m", ClassMember.traced (ClassMember.functionType ("m"))
        ⟨"", "C", TRIGGER_ON_FAILURE, true⟩)]⟩ ∧
    trace_function_call empty_trace_options =
      Except.ok ⟨"", "", TRIGGER_ON_FAILURE, false⟩ := by
  constructor <;> decide

end NoseTracer
